import Mathlib

/-!
Shallow embedding of the resilient retrieval-and-analytics core of the
Azure FinOps Optimizer repository, together with theorems settling the
frozen specification claims.

Modelling conventions:
- Python floats are modelled as rationals; the binary representation error
  of IEEE doubles is not modelled.  The built-in Python round function
  (round half to even) is modelled by pyRound2 below.
- Azure SDK calls that can raise are modelled as Except values supplied by
  the caller; a trace of attempt outcomes models a repeatedly invoked
  operation for the retry wrapper.
- Wall-clock effects (time.sleep, datetime.utcnow, log output) are not
  modelled; the analysis_date result field is omitted for that reason, and
  backoff delays are irrelevant to the claims, which only count attempts.
-/

/- ===== src/utils/error_handling.py ===== -/

/-- Error taxonomy seen by retry_with_backoff: ClientAuthenticationError,
HttpResponseError (with a status code), ServiceRequestError / ConnectionError,
and any other exception. -/
inductive AzureError where
  | auth : AzureError
  | http (status : ℕ) : AzureError
  | network : AzureError
  | other : AzureError
deriving DecidableEq

/-- Outcome of invoking the wrapped operation once. -/
inductive Outcome (α : Type) where
  | ok (value : α) : Outcome α
  | err (e : AzureError) : Outcome α
deriving DecidableEq

/-- How a retry_with_backoff call terminates when it does not succeed:
raise AuthenticationExpired, raise RateLimitExceeded, re-raise the
HttpResponseError, re-raise the network error, or re-raise an unexpected
exception. -/
inductive FailureKind where
  | authExpired : FailureKind
  | rateLimitExceeded : FailureKind
  | httpError (status : ℕ) : FailureKind
  | networkError : FailureKind
  | unexpectedError : FailureKind
deriving DecidableEq

/-- Result of running the wrapper: the returned value or the raised failure,
together with the number of times the wrapped operation was invoked. -/
inductive RetryResult (α : Type) where
  | success (value : α) (attempts : ℕ) : RetryResult α
  | failure (kind : FailureKind) (attempts : ℕ) : RetryResult α
deriving DecidableEq

/-- One iteration of the `for attempt in range(max_retries + 1)` loop of
retry_with_backoff (src/utils/error_handling.py lines 59-128), given the
outcome trace `f` of successive invocations.  Branches, in source order:
ClientAuthenticationError raises AuthenticationExpired; status 429 retries
while attempt < max_retries, else raises RateLimitExceeded; a 5xx status
retries while attempt < max_retries, else re-raises; any other status
raises; network errors retry while attempt < max_retries, else re-raise;
any other exception raises.  Sleep durations do not affect control flow
and are not modelled. -/
def retryGo {α : Type} (f : ℕ → Outcome α) (maxRetries : ℕ) (attempt : ℕ) :
    RetryResult α :=
  match f attempt with
  | .ok a => .success a (attempt + 1)
  | .err .auth => .failure .authExpired (attempt + 1)
  | .err (.http s) =>
    if s = 429 then
      if h : attempt < maxRetries then retryGo f maxRetries (attempt + 1)
      else .failure .rateLimitExceeded (attempt + 1)
    else if 500 ≤ s ∧ s < 600 then
      if h : attempt < maxRetries then retryGo f maxRetries (attempt + 1)
      else .failure (.httpError s) (attempt + 1)
    else .failure (.httpError s) (attempt + 1)
  | .err .network =>
    if h : attempt < maxRetries then retryGo f maxRetries (attempt + 1)
    else .failure .networkError (attempt + 1)
  | .err .other => .failure .unexpectedError (attempt + 1)
termination_by maxRetries - attempt
decreasing_by all_goals omega

/-- Running the decorated function: the loop starts at attempt 0. -/
def retryRun {α : Type} (maxRetries : ℕ) (f : ℕ → Outcome α) : RetryResult α :=
  retryGo f maxRetries 0

/-- The error classes the wrapper retries: HTTP 429, HTTP 5xx, network. -/
def isRetryable : AzureError → Bool
  | .http s => s == 429 || (decide (500 ≤ s) && decide (s < 600))
  | .network => true
  | _ => false

/- ===== Rounding (the Python built-in round(x, 2)) ===== -/

/-- Model of the Python round(x, 2): round to the nearest multiple of 1/100,
ties to the even multiple (round half to even).  The binary floating point
representation of the argument is idealised away. -/
def pyRound2 (q : ℚ) : ℚ :=
  let x := q * 100
  let f : ℤ := ⌊x⌋
  let frac : ℚ := x - (f : ℚ)
  let r : ℤ :=
    if frac < 1 / 2 then f
    else if 1 / 2 < frac then f + 1
    else if f % 2 = 0 then f else f + 1
  (r : ℚ) / 100

/- ===== src/tools/anomaly_detector.py ===== -/

/-- One row parsed by _get_actual_costs: cost, resource group, service name
and date.  The anomaly loop also reads an optional subscription_name with
cost_entry.get (the parser never sets that key). -/
structure CostEntry where
  cost : ℚ
  resource_group : String
  service_name : String
  date : String
  subscription_name : Option String
deriving DecidableEq

/-- The function _calculate_averages followed by the dict lookup
historical_averages.get(key, 0.0): group the baseline entries by
(resource_group, service_name), take the arithmetic mean per key, and
default to 0 for a key with no baseline entries.  The dict-of-lists
grouping is modelled as a filter by key, which collects exactly the same
costs in the same order. -/
def averageFor (entries : List CostEntry) (key : String × String) : ℚ :=
  let costs := (entries.filter
    (fun e => decide ((e.resource_group, e.service_name) = key))).map (·.cost)
  if costs.isEmpty then 0 else costs.sum / (costs.length : ℚ)

/-- The anomaly dictionary appended by _detect_subscription_anomalies. -/
structure AnomalyRecord where
  subscription_id : String
  subscription_name : String
  resource_group : String
  service_name : String
  actual_cost : ℚ
  average_cost : ℚ
  variance_percent : ℚ
  date : String
deriving DecidableEq

/-- The record built at src/tools/anomaly_detector.py lines 115-128 once the
threshold test has passed: actual cost, average and variance are rounded to
two decimals before being stored. -/
def mkAnomaly (sub : String) (e : CostEntry) (avg : ℚ) : AnomalyRecord :=
  { subscription_id := sub
    subscription_name := e.subscription_name.getD "Unknown"
    resource_group := e.resource_group
    service_name := e.service_name
    actual_cost := pyRound2 e.cost
    average_cost := pyRound2 avg
    variance_percent := pyRound2 ((e.cost - avg) / avg * 100)
    date := e.date }

/-- Body of the comparison loop for one cost entry: flag the entry when the
baseline average is positive and the actual cost exceeds average times
threshold (line 114). -/
def flagEntry (sub : String) (hist : List CostEntry) (thr : ℚ) (e : CostEntry) :
    Option AnomalyRecord :=
  let avg := averageFor hist (e.resource_group, e.service_name)
  if 0 < avg ∧ avg * thr < e.cost then some (mkAnomaly sub e avg) else none

/-- The comparison loop of _detect_subscription_anomalies (lines 110-128),
accumulating the anomalies list in entry order. -/
def detectCore (sub : String) (actual hist : List CostEntry) (thr : ℚ) :
    List AnomalyRecord :=
  actual.foldl (fun anomalies e =>
    match flagEntry sub hist thr e with
    | some rec => anomalies ++ [rec]
    | none => anomalies) []

/-- The inputs one subscription contributes to a detection run: its id and
the outcomes of the two cost queries (today window and baseline window). -/
structure SubFetch where
  sub_id : String
  fetchActual : Except AzureError (List CostEntry)
  fetchHist : Except AzureError (List CostEntry)

/-- The function _detect_subscription_anomalies: any exception raised while fetching
either window is caught by the per-subscription handler (lines 130-132) and
the subscription yields the anomalies accumulated so far, which is the
empty list because the fetches precede the comparison loop. -/
def detectSubscriptionAnomalies (s : SubFetch) (thr : ℚ) : List AnomalyRecord :=
  match s.fetchActual, s.fetchHist with
  | .ok actual, .ok hist => detectCore s.sub_id actual hist thr
  | _, _ => []

/-- The success payload of get_enterprise_anomalies (the analysis_date
timestamp is omitted, see the header). -/
structure AnomalyResult where
  anomalies : List AnomalyRecord
  total_anomalies : ℕ
  total_excess_spend : ℚ
  threshold : ℚ

/-- get_enterprise_anomalies (lines 52-74): concatenate the per-subscription
anomalies, accumulate excess spend as stored actual_cost minus stored
average_cost per anomaly, sort by variance_percent descending (Python
list.sort is stable; merge sort with the reversed comparison matches it),
and round the excess total once when building the result. -/
def enterpriseAnomalies (subs : List SubFetch) (thr : ℚ) : AnomalyResult :=
  let all := subs.flatMap (fun s => detectSubscriptionAnomalies s thr)
  let excess := (all.map (fun r => r.actual_cost - r.average_cost)).sum
  { anomalies := all.mergeSort
      (fun a b => decide (b.variance_percent ≤ a.variance_percent))
    total_anomalies := all.length
    total_excess_spend := pyRound2 excess
    threshold := thr }

/-- The boundary of get_enterprise_anomalies (lines 44-50 and 81-83): an
empty subscription list raises ValueError, which the top-level handler
turns into an error payload; the payload is abbreviated to the ValueError
message. -/
def getEnterpriseAnomalies (subs : List SubFetch) (thr : ℚ) :
    Except String AnomalyResult :=
  if subs.isEmpty then
    .error "No subscription IDs provided. Set AZURE_SUBSCRIPTION_IDS environment variable."
  else .ok (enterpriseAnomalies subs thr)

/- ===== src/tools/governance_advisor.py ===== -/

/-- The needle-in-haystack test of the Python `in` operator on strings,
over lists of characters. -/
def hasSub (needle : List Char) : List Char → Bool
  | [] => needle.isEmpty
  | c :: rest => needle.isPrefixOf (c :: rest) || hasSub needle rest

/-- Keyword containment in an already lowercased text. -/
def containsKw (text : List Char) (kw : String) : Bool := hasSub kw.toList text

/-- short_description of an Azure Advisor recommendation. -/
structure ShortDescription where
  problem : String
  solution : Option String
deriving DecidableEq

/-- The fields of an Azure Advisor recommendation object read by the
governance advisor.  savingsAmount is the numeric value parsed by
_extract_cost_impact from extended_properties; none stands for a missing
extended_properties mapping, a missing savingsAmount key (whose default
string "0" parses to 0 and is represented as some 0), or an unparseable
value, all of which the Python code turns into 0.0. -/
structure AdvisorRec where
  id : String
  category : String
  impact : Option String
  short_description : Option ShortDescription
  savingsAmount : Option ℚ
  impacted_value : Option String

/-- The Python idiom `recommendation.impact or "Medium"`: both a missing
impact and an empty-string impact fall back to "Medium". -/
def effImpact (impact : Option String) : String :=
  match impact with
  | none => "Medium"
  | some s => if s = "" then "Medium" else s

/-- problem text used for keyword checks:
recommendation.short_description.problem.lower() when short_description is
present, the empty string otherwise (lines 165-169). -/
def problemText (r : AdvisorRec) : List Char :=
  match r.short_description with
  | some sd => sd.problem.toList.map Char.toLower
  | none => []

/-- The function _extract_cost_impact: the parsed savings amount, 0 on any failure. -/
def extractCostImpact (r : AdvisorRec) : ℚ := r.savingsAmount.getD 0

/-- The risk_factors dictionary accumulated by _calculate_risk_score. -/
structure RiskFactors where
  iso_27001_controls : List String
  nia_qatar_requirements : List String
  cost_impact : String
  security_impact : String
deriving DecidableEq

/-- The category-dependent part of the additive score of
_calculate_risk_score (lines 171-224): the Security base with its two
keyword bonuses, the Cost tiers on potential savings, the
Performance/HighAvailability impact tiers, and the OperationalExcellence
flat point.  The sequential `score += ...` updates of the source are
decomposed into this sum plus prodBonus below. -/
def categoryScore (r : AdvisorRec) : ℤ :=
  let impact := effImpact r.impact
  let p := problemText r
  if r.category = "Security" then
    (if impact = "High" then 4 else if impact = "Medium" then 3 else 2)
    + (if containsKw p "encrypt" then 2 else 0)
    + (if containsKw p "access" || containsKw p "authentication" then 2 else 0)
  else if r.category = "Cost" then
    (if 1000 < extractCostImpact r then 3
     else if 100 < extractCostImpact r then 2 else 1)
  else if r.category = "Performance" ∨ r.category = "HighAvailability" then
    (if impact = "High" then 3 else if impact = "Medium" then 2 else 1)
  else if r.category = "OperationalExcellence" then 1
  else 0

/-- The production-resource bonus (lines 226-228), applied whatever the
category. -/
def prodBonus (r : AdvisorRec) : ℤ :=
  if containsKw (problemText r) "prod" || containsKw (problemText r) "production"
  then 2 else 0

/-- The additive score before the final clamp. -/
def rawRiskScore (r : AdvisorRec) : ℤ := categoryScore r + prodBonus r

/-- The risk_factors value _calculate_risk_score returns alongside the
score. -/
def riskFactorsOf (r : AdvisorRec) : RiskFactors :=
  let impact := effImpact r.impact
  let p := problemText r
  { iso_27001_controls :=
      (if r.category = "Security" then
        (if containsKw p "encrypt" then ["A.8.2.3", "A.10.1.1"] else [])
        ++ (if containsKw p "access" || containsKw p "authentication" then
              ["A.9.1.1", "A.9.2.1"] else [])
       else [])
    nia_qatar_requirements :=
      (if r.category = "Security" then
        (if containsKw p "encrypt" then
          ["All data must be encrypted at rest"] else [])
        ++ (if containsKw p "access" || containsKw p "authentication" then
              ["MFA required for all administrative access"] else [])
       else [])
    cost_impact :=
      if r.category = "Cost" then
        (if 1000 < extractCostImpact r then "High"
         else if 100 < extractCostImpact r then "Medium" else "Low")
      else "Unknown"
    security_impact :=
      if r.category = "Security" then
        (if impact = "High" then "Critical"
         else if impact = "Medium" then "High" else "Medium")
      else "Unknown" }

/-- The function _calculate_risk_score: the accumulated score capped at 10 (line 231),
with the accumulated risk factors. -/
def calcRiskScore (r : AdvisorRec) : ℤ × RiskFactors :=
  (min (rawRiskScore r) 10, riskFactorsOf r)

/-- The function _estimate_effort: the (category, impact) lookup with default 2 for a
category missing from the table or an impact missing from its row. -/
def estimateEffort (r : AdvisorRec) : ℚ :=
  let impact := effImpact r.impact
  if r.category = "Security" then
    (if impact = "High" then 4 else if impact = "Medium" then 2
     else if impact = "Low" then 1 else 2)
  else if r.category = "Cost" then
    (if impact = "High" then 2 else if impact = "Medium" then 1
     else if impact = "Low" then 0.5 else 2)
  else if r.category = "Performance" then
    (if impact = "High" then 3 else if impact = "Medium" then 2
     else if impact = "Low" then 1 else 2)
  else if r.category = "HighAvailability" then
    (if impact = "High" then 4 else if impact = "Medium" then 3
     else if impact = "Low" then 2 else 2)
  else if r.category = "OperationalExcellence" then
    (if impact = "High" then 2 else if impact = "Medium" then 1
     else if impact = "Low" then 0.5 else 2)
  else 2

/-- The function _extract_remediation_steps: the solution text when short_description is
present and its solution is a nonempty string (Python truthiness), else the
portal fallback line. -/
def extractRemediationSteps (r : AdvisorRec) : List String :=
  match r.short_description with
  | some sd =>
    match sd.solution with
    | some sol =>
      if sol = "" then ["Review Azure Advisor recommendation details in Azure Portal"]
      else [sol]
    | none => ["Review Azure Advisor recommendation details in Azure Portal"]
  | none => ["Review Azure Advisor recommendation details in Azure Portal"]

/-- The per-recommendation dictionary built by _get_advisor_recommendations
(lines 121-137).  description mirrors the source exactly: when
short_description is present its (possibly missing) solution is stored,
otherwise the literal "No description". -/
structure RecOut where
  id : String
  subscription_id : String
  category : String
  title : String
  description : Option String
  risk_score : ℤ
  risk_factors : RiskFactors
  remediation_steps : List String
  estimated_cost : ℚ
  estimated_effort_hours : ℚ
  impacted_resource : String

/-- Build the output dictionary for one advisor recommendation. -/
def buildRecOut (sub_id : String) (r : AdvisorRec) : RecOut :=
  { id := r.id
    subscription_id := sub_id
    category := r.category
    title := match r.short_description with
      | some sd => sd.problem
      | none => "Unknown"
    description := match r.short_description with
      | some sd => sd.solution
      | none => some "No description"
    risk_score := (calcRiskScore r).1
    risk_factors := (calcRiskScore r).2
    remediation_steps := extractRemediationSteps r
    estimated_cost := extractCostImpact r
    estimated_effort_hours := estimateEffort r
    impacted_resource := r.impacted_value.getD "Unknown" }

/-- Outcome of the lazy, paged advisor listing loop of
_get_advisor_recommendations: the recommendations that were successfully
yielded and processed before the loop ended (yielded), and the exception
that ended it early, if any (failure) — a paging failure of
recommendations.list(), or a scoring failure on a malformed record,
raised after some records were already appended.  failure = none means
the iteration completed normally. -/
structure AdvisorListing where
  yielded : List AdvisorRec
  failure : Option AzureError

/-- The function _get_advisor_recommendations (lines 107-142): each
successfully yielded recommendation is scored and appended inside the try;
an exception raised mid-iteration is caught by the per-subscription
handler (lines 139-141), which logs it and falls through to return the
partial list accumulated so far.  The function therefore returns the map
over the yielded prefix whether or not a failure ended the loop. -/
def getAdvisorRecommendations (sub_id : String)
    (listing : AdvisorListing) : List RecOut :=
  listing.yielded.map (buildRecOut sub_id)

/-- The summary dictionary of _calculate_summary. -/
structure GovSummary where
  total_recommendations : ℕ
  high_risk_count : ℕ
  medium_risk_count : ℕ
  low_risk_count : ℕ
  potential_monthly_savings : ℚ
  potential_annual_savings : ℚ

/-- The function _calculate_summary over the filtered recommendation list. -/
def calcSummary (recs : List RecOut) : GovSummary :=
  let savings := (recs.map (·.estimated_cost)).sum
  { total_recommendations := recs.length
    high_risk_count := (recs.filter (fun r => decide (7 ≤ r.risk_score))).length
    medium_risk_count :=
      (recs.filter (fun r => decide (4 ≤ r.risk_score ∧ r.risk_score < 7))).length
    low_risk_count := (recs.filter (fun r => decide (r.risk_score < 4))).length
    potential_monthly_savings := pyRound2 savings
    potential_annual_savings := pyRound2 (savings * 12) }

/-- The success payload of governance_remediation_advisor. -/
structure GovResult where
  recommendations : List RecOut
  summary : GovSummary
  min_risk_score : ℤ

/-- The aggregation of governance_remediation_advisor (lines 62-90):
concatenate the per-subscription recommendation lists, keep those whose
risk score reaches min_risk_score, sort by risk score descending
(stable), summarise. -/
def governanceAdvisor (subs : List (String × AdvisorListing))
    (minRisk : ℤ) : GovResult :=
  let all := subs.flatMap (fun s => getAdvisorRecommendations s.1 s.2)
  let filtered := all.filter (fun r => decide (minRisk ≤ r.risk_score))
  let sorted := filtered.mergeSort (fun a b => decide (b.risk_score ≤ a.risk_score))
  { recommendations := sorted
    summary := calcSummary sorted
    min_risk_score := minRisk }

/-- The boundary of governance_remediation_advisor (lines 59-60 and
92-94): an empty subscription list raises ValueError, converted by the
top-level handler into an error payload, abbreviated to its message. -/
def governanceRemediationAdvisor (subs : List (String × AdvisorListing))
    (minRisk : ℤ) : Except String GovResult :=
  if subs.isEmpty then
    .error "No subscription IDs provided. Set AZURE_SUBSCRIPTION_IDS."
  else .ok (governanceAdvisor subs minRisk)

/- ===== src/tools/compliance_overlay.py ===== -/

/-- The fields of an input cost recommendation dictionary that the overlay
reads; a missing dictionary key is none and the per-site .get defaults are
applied where the source applies them. -/
structure CostRecInput where
  id : Option String
  title : Option String
  description : Option String
  resource_type : Option String

/-- The lowercased text blob rec_text of _check_compliance_impact
(lines 137-141). -/
def recText (r : CostRecInput) : List Char :=
  ((r.title.getD "" ++ " " ++ r.description.getD "" ++ " "
    ++ r.resource_type.getD "").toList).map Char.toLower

/-- A compliance flag dictionary.  ISO 27001 flags carry controls and an
impact description; NIA Qatar flags carry a requirement instead. -/
structure ComplianceFlag where
  framework : String
  controls : List String
  requirement : Option String
  impact : Option String
  warning : String
  severity : String
deriving DecidableEq

/-- ISO 27001 encryption bucket flag. -/
def isoEncryptionFlag : ComplianceFlag :=
  { framework := "ISO 27001", controls := ["A.8.2.3", "A.10.1.1", "A.10.1.2"]
    requirement := none, impact := some "Encryption of information"
    warning := "Premium storage SKUs required for encryption", severity := "high" }

/-- ISO 27001 backup bucket flag. -/
def isoBackupFlag : ComplianceFlag :=
  { framework := "ISO 27001", controls := ["A.12.3.1"]
    requirement := none, impact := some "Information backup"
    warning := "Backup storage and retention costs", severity := "high" }

/-- ISO 27001 monitoring bucket flag. -/
def isoMonitoringFlag : ComplianceFlag :=
  { framework := "ISO 27001", controls := ["A.12.4.1", "A.12.4.2"]
    requirement := none, impact := some "Event logging and monitoring"
    warning := "Log Analytics and monitoring costs", severity := "medium" }

/-- ISO 27001 availability bucket flag. -/
def isoAvailabilityFlag : ComplianceFlag :=
  { framework := "ISO 27001", controls := ["A.17.1.1", "A.17.2.1"]
    requirement := none
    impact := some "Availability of information processing facilities"
    warning := "Redundancy and high-availability configurations"
    severity := "high" }

/-- NIA Qatar data sovereignty bucket flag. -/
def niaSovereigntyFlag : ComplianceFlag :=
  { framework := "NIA Qatar", controls := []
    requirement := some "Data must be stored in Qatar or approved regions"
    impact := none
    warning := "Qatar region may have higher costs than other regions"
    severity := "critical" }

/-- NIA Qatar encryption-at-rest bucket flag. -/
def niaEncryptionFlag : ComplianceFlag :=
  { framework := "NIA Qatar", controls := []
    requirement := some "All data must be encrypted at rest"
    impact := none
    warning := "Premium storage SKUs required", severity := "critical" }

/-- NIA Qatar high-availability bucket flag. -/
def niaHighAvailFlag : ComplianceFlag :=
  { framework := "NIA Qatar", controls := []
    requirement := some "Critical systems must have 99.9% uptime"
    impact := none
    warning := "Zone-redundant and geo-redundant configurations"
    severity := "high" }

/-- NIA Qatar audit-logging bucket flag. -/
def niaAuditFlag : ComplianceFlag :=
  { framework := "NIA Qatar", controls := []
    requirement := some "All access must be logged for 90+ days"
    impact := none
    warning := "Log retention and storage costs", severity := "medium" }

/-- The Python any(keyword in rec_text for keyword in [...]) test. -/
def kwAny (text : List Char) (kws : List String) : Bool :=
  kws.any (fun k => hasSub k.toList text)

/-- The function _check_compliance_impact (lines 119-223): the eight keyword buckets in
source order, each appending its flag when a keyword matches. -/
def checkComplianceImpact (r : CostRecInput) (checkIso checkNia : Bool) :
    List ComplianceFlag :=
  let t := recText r
  (if checkIso then
    (if kwAny t ["encrypt", "storage", "disk", "premium"] then [isoEncryptionFlag] else [])
    ++ (if kwAny t ["backup", "snapshot", "retention"] then [isoBackupFlag] else [])
    ++ (if kwAny t ["monitor", "log", "analytics", "diagnostic"] then [isoMonitoringFlag] else [])
    ++ (if kwAny t ["redundan", "availability", "zone", "geo"] then [isoAvailabilityFlag] else [])
   else [])
  ++ (if checkNia then
    (if kwAny t ["region", "location", "geo"] then [niaSovereigntyFlag] else [])
    ++ (if kwAny t ["encrypt", "storage", "disk"] then [niaEncryptionFlag] else [])
    ++ (if kwAny t ["availability", "redundan", "uptime"] then [niaHighAvailFlag] else [])
    ++ (if kwAny t ["log", "audit", "retention"] then [niaAuditFlag] else [])
   else [])

/-- The numeric severity order of _generate_compliance_warning, with the
.get default 1 for an unknown severity string. -/
def sevRank (s : String) : ℕ :=
  if s = "critical" then 4 else if s = "high" then 3
  else if s = "medium" then 2 else if s = "low" then 1 else 1

/-- Recover the severity name from its rank: the first severity_order key
holding the value.  Unreachable ranks (outside 1..4, where the Python list
indexing would fail) fall to the final branch. -/
def sevName (n : ℕ) : String :=
  if n = 4 then "critical" else if n = 3 then "high"
  else if n = 2 then "medium" else "low"

/-- max(...) over the flag ranks.  Folding with neutral element 1 agrees
with the Python max on every nonempty list because each rank is at least 1;
_generate_compliance_warning is only invoked on nonempty flag lists. -/
def maxSevRank (flags : List ComplianceFlag) : ℕ :=
  (flags.map (fun f => sevRank f.severity)).foldr max 1

/-- The function _get_action_required, with the dictionary default of the medium
action. -/
def getActionRequired (severity : String) : String :=
  if severity = "critical" then
    "STOP: Do not implement without compliance officer approval. May violate regulatory requirements."
  else if severity = "high" then
    "REVIEW: Requires security/compliance team review before implementation. May impact critical controls."
  else if severity = "medium" then
    "ASSESS: Review impact on compliance controls. Document justification if proceeding."
  else if severity = "low" then
    "MONITOR: Minimal compliance impact. Proceed with standard change management."
  else
    "ASSESS: Review impact on compliance controls. Document justification if proceeding."

/-- The warning dictionary of _generate_compliance_warning. -/
structure ComplianceWarning where
  recommendation_id : String
  recommendation_title : String
  severity : String
  frameworks_impacted : List String
  flags : List ComplianceFlag
  action_required : String
deriving DecidableEq

/-- The function _generate_compliance_warning (lines 226-257).  frameworks_impacted is
list(set(...)) in the source; the set iteration order is unspecified there
and modelled as first-occurrence order. -/
def generateComplianceWarning (r : CostRecInput) (flags : List ComplianceFlag) :
    ComplianceWarning :=
  { recommendation_id := r.id.getD "unknown"
    recommendation_title := r.title.getD "Unknown"
    severity := sevName (maxSevRank flags)
    frameworks_impacted := (flags.map (·.framework)).eraseDups
    flags := flags
    action_required := getActionRequired (sevName (maxSevRank flags)) }

/-- The result of apply_compliance_overlay.  A flagged recommendation is
modelled as the input paired with its compliance_flags list (the source
copies the dictionary and adds compliance_flags plus a
requires_compliance_review marker). -/
structure OverlayResult where
  flagged_recommendations : List (CostRecInput × List ComplianceFlag)
  safe_recommendations : List CostRecInput
  compliance_warnings : List ComplianceWarning
  total_recommendations : ℕ
  flagged_count : ℕ
  safe_count : ℕ

/-- The loop body of apply_compliance_overlay over one recommendation,
appending to the three accumulated lists. -/
def overlayStep (checkIso checkNia : Bool)
    (acc : List (CostRecInput × List ComplianceFlag) × List CostRecInput × List ComplianceWarning)
    (r : CostRecInput) :
    List (CostRecInput × List ComplianceFlag) × List CostRecInput × List ComplianceWarning :=
  let flags := checkComplianceImpact r checkIso checkNia
  if flags.isEmpty then (acc.1, acc.2.1 ++ [r], acc.2.2)
  else (acc.1 ++ [(r, flags)], acc.2.1, acc.2.2 ++ [generateComplianceWarning r flags])

/-- apply_compliance_overlay (lines 57-116). -/
def applyComplianceOverlay (recs : List CostRecInput) (checkIso checkNia : Bool) :
    OverlayResult :=
  let t := recs.foldl (overlayStep checkIso checkNia) ([], [], [])
  { flagged_recommendations := t.1
    safe_recommendations := t.2.1
    compliance_warnings := t.2.2
    total_recommendations := recs.length
    flagged_count := t.1.length
    safe_count := t.2.1.length }

/-- Modelled from the spec: the maximum severity among a list of flags
under the precedence critical > high > medium > low, used to compare the
code against the severity-selection sentence of the claim. -/
def specMaxSeverity (flags : List ComplianceFlag) : String :=
  if flags.any (fun f => f.severity == "critical") then "critical"
  else if flags.any (fun f => f.severity == "high") then "high"
  else if flags.any (fun f => f.severity == "medium") then "medium"
  else "low"

/- ===== src/utils/pricing.py ===== -/

/-- PRICING_DATABASE, virtual machine section. -/
def VM_PRICES : List (String × ℚ) :=
  [("Standard_B1s", 7.59), ("Standard_B2s", 30.37), ("Standard_D2s_v3", 96.36),
   ("Standard_D4s_v3", 192.72), ("Standard_D8s_v3", 385.44),
   ("Standard_E2s_v3", 109.50), ("Standard_E4s_v3", 219.00)]

/-- PRICING_DATABASE, Standard_LRS disk tiers (the string dictionary keys
are their integer values; int conversion is a bijection on these keys). -/
def STANDARD_LRS_TIERS : List (ℚ × ℚ) :=
  [(32, 1.54), (64, 3.07), (128, 6.14), (256, 12.29), (512, 24.58), (1024, 49.15)]

/-- PRICING_DATABASE, Premium_LRS disk tiers. -/
def PREMIUM_LRS_TIERS : List (ℚ × ℚ) :=
  [(32, 4.81), (64, 9.62), (128, 19.71), (256, 39.42), (512, 78.85), (1024, 157.70)]

/-- PRICING_DATABASE, disk section: the .get(sku, empty dict) lookup. -/
def diskPricing (sku : String) : List (ℚ × ℚ) :=
  if sku = "Standard_LRS" then STANDARD_LRS_TIERS
  else if sku = "Premium_LRS" then PREMIUM_LRS_TIERS
  else []

/-- PRICING_DATABASE, public IP section. -/
def PUBLIC_IP_PRICES : List (String × ℚ) := [("Basic", 3.65), ("Standard", 3.65)]

/-- PRICING_DATABASE, storage account section (price per GB month). -/
def STORAGE_PRICES : List (String × ℚ) :=
  [("Standard_LRS", 0.0184), ("Standard_GRS", 0.0368), ("Premium_LRS", 0.15)]

/-- get_vm_monthly_cost: flat SKU lookup; the region argument is accepted
and unused, as in the source. -/
def getVmMonthlyCost (sku : String) (_region : String) : Option ℚ :=
  (VM_PRICES.find? (fun p => p.1 == sku)).map Prod.snd

/-- get_disk_monthly_cost (lines 73-99): sort the tier sizes, pick the first
tier at least as large as the requested size, fall back to the largest tier
when the request exceeds every tier, and return that tier price. -/
def getDiskMonthlyCost (sku : String) (size_gb : ℚ) : Option ℚ :=
  let disk_pricing := diskPricing sku
  if disk_pricing.isEmpty then none
  else
    let available_sizes := (disk_pricing.map Prod.fst).mergeSort
      (fun a b => decide (a ≤ b))
    let selected_size : ℚ :=
      match available_sizes.find? (fun s => decide (size_gb ≤ s)) with
      | some s => s
      | none => (available_sizes.getLast?).getD 0
    (disk_pricing.find? (fun p => decide (p.1 = selected_size))).map Prod.snd

/-- get_public_ip_monthly_cost: dictionary lookup with default 3.65 — this
function always returns a price. -/
def getPublicIpMonthlyCost (sku : String) : ℚ :=
  ((PUBLIC_IP_PRICES.find? (fun p => p.1 == sku)).map Prod.snd).getD 3.65

/-- get_storage_account_monthly_cost: linear in size; the Python
`if price_per_gb:` truthiness test also sends a zero price to the none
branch. -/
def getStorageAccountMonthlyCost (sku : String) (size_gb : ℚ) : Option ℚ :=
  match (STORAGE_PRICES.find? (fun p => p.1 == sku)).map Prod.snd with
  | some p => if p = 0 then none else some (p * size_gb)
  | none => none

/-- estimate_resource_cost (lines 132-156).  The size_gb keyword argument is
optional; the source defaults it to 128 for disks and 100 for storage
accounts. -/
def estimateResourceCost (resource_type sku : String) (size_gb : Option ℚ) :
    Option ℚ :=
  if resource_type = "Microsoft.Compute/virtualMachines" then
    getVmMonthlyCost sku "eastus"
  else if resource_type = "Microsoft.Compute/disks" then
    getDiskMonthlyCost sku (size_gb.getD 128)
  else if resource_type = "Microsoft.Network/publicIPAddresses" then
    some (getPublicIpMonthlyCost sku)
  else if resource_type = "Microsoft.Storage/storageAccounts" then
    getStorageAccountMonthlyCost sku (size_gb.getD 100)
  else none

/- ===== Concrete example inputs ===== -/

/-- Baseline entry with cost 3 for the key (rg, svc). -/
def exHistEntry : CostEntry :=
  { cost := 3, resource_group := "rg", service_name := "svc"
    date := "2026-10-10", subscription_name := none }

/-- Today entry with cost 10 for the key (rg, svc): flagged at threshold
3/2, with exact variance 700/3 percent. -/
def exTodayEntry : CostEntry :=
  { cost := 10, resource_group := "rg", service_name := "svc"
    date := "2026-10-11", subscription_name := none }

/-- Today entry with cost 10.004 for service a. -/
def exCostA : CostEntry :=
  { cost := 10.004, resource_group := "rg", service_name := "a"
    date := "2026-10-11", subscription_name := none }

/-- Today entry with cost 10.004 for service b. -/
def exCostB : CostEntry :=
  { cost := 10.004, resource_group := "rg", service_name := "b"
    date := "2026-10-11", subscription_name := none }

/-- Baseline entry with cost 1 for service a. -/
def exHistA : CostEntry :=
  { cost := 1, resource_group := "rg", service_name := "a"
    date := "2026-10-10", subscription_name := none }

/-- Baseline entry with cost 1 for service b. -/
def exHistB : CostEntry :=
  { cost := 1, resource_group := "rg", service_name := "b"
    date := "2026-10-10", subscription_name := none }

/-- A subscription whose two flagged records each carry the rounding error
of 10.004. -/
def exSubRounding : SubFetch :=
  { sub_id := "sub-1", fetchActual := .ok [exCostA, exCostB]
    fetchHist := .ok [exHistA, exHistB] }

/-- A subscription whose first cost query raises an authentication error. -/
def exSubAuthFail : SubFetch :=
  { sub_id := "sub-auth", fetchActual := .error .auth, fetchHist := .ok [] }

/-- A healthy one-anomaly subscription used in the isolation witness. -/
def exSubOk : SubFetch :=
  { sub_id := "sub-ok", fetchActual := .ok [exTodayEntry]
    fetchHist := .ok [exHistEntry] }

/-- Operation trace failing twice with HTTP 429 and then succeeding. -/
def exTraceTwo429 : ℕ → Outcome ℕ :=
  fun i => if i < 2 then .err (.http 429) else .ok 42

/-- Operation trace that always fails with HTTP 429. -/
def exTrace429 : ℕ → Outcome ℕ := fun _ => .err (.http 429)

/-- Operation trace that fails with an authentication error at once. -/
def exTraceAuth : ℕ → Outcome ℕ := fun _ => .err .auth

/-- Advisor recommendation accumulating every Security bonus: high impact,
encryption, access and production keywords. -/
def exRecMax : AdvisorRec :=
  { id := "rec-max", category := "Security", impact := some "High"
    short_description := some
      { problem := "Encrypt access to production DB", solution := none }
    savingsAmount := none, impacted_value := none }

/-- Security recommendation with a missing impact and no short
description. -/
def exRecNoImpact : AdvisorRec :=
  { id := "rec-noimpact", category := "Security", impact := none
    short_description := none, savingsAmount := none, impacted_value := none }

/-- An advisor listing that fails with an HTTP 500 before yielding any
recommendation. -/
def exGovFail : String × AdvisorListing :=
  ("gov-bad", ⟨[], some (.http 500)⟩)

/-- An advisor listing that completes normally with one recommendation. -/
def exGovOk : String × AdvisorListing :=
  ("gov-ok", ⟨[exRecMax], none⟩)

/-- An advisor listing that fails with an HTTP 500 after one
recommendation has already been yielded and scored. -/
def exGovPartial : AdvisorListing :=
  ⟨[exRecMax], some (.http 500)⟩

/-- Cost recommendation matching both a medium bucket (log) and a critical
bucket (region). -/
def exComplianceRec : CostRecInput :=
  { id := some "cr-1", title := some "Reduce log region spend"
    description := none, resource_type := none }

/-- Modelled from the amended claim C6: the per-subscription excess spend
as the sum, over the flagged entries, of the stored two-decimal-rounded
actual cost minus the stored two-decimal-rounded baseline average. -/
def subExcess (s : SubFetch) (thr : ℚ) : ℚ :=
  match s.fetchActual, s.fetchHist with
  | .ok actual, .ok hist =>
    ((actual.filter (fun e =>
        decide (0 < averageFor hist (e.resource_group, e.service_name) ∧
          averageFor hist (e.resource_group, e.service_name) * thr < e.cost))).map
      (fun e => pyRound2 e.cost
        - pyRound2 (averageFor hist (e.resource_group, e.service_name)))).sum
  | _, _ => 0

/- ===== Theorems ===== -/

theorem retryGo_step_ok {α : Type} {f : ℕ → Outcome α} {m k : ℕ} {a : α}
    (h : f k = .ok a) : retryGo f m k = .success a (k + 1) := by
  unfold retryGo
  rw [h]

theorem retryGo_step_auth {α : Type} {f : ℕ → Outcome α} {m k : ℕ}
    (h : f k = .err .auth) : retryGo f m k = .failure .authExpired (k + 1) := by
  unfold retryGo
  rw [h]

theorem retryGo_step_retryable {α : Type} {f : ℕ → Outcome α} {m k : ℕ}
    {e : AzureError} (h : f k = .err e) (hr : isRetryable e = true)
    (hk : k < m) : retryGo f m k = retryGo f m (k + 1) := by
  cases e with
  | auth => simp [isRetryable] at hr
  | other => simp [isRetryable] at hr
  | network =>
    conv_lhs => unfold retryGo
    rw [h]
    simp [hk]
  | http s =>
    simp only [isRetryable, Bool.or_eq_true, beq_iff_eq, Bool.and_eq_true,
      decide_eq_true_eq] at hr
    conv_lhs => unfold retryGo
    rw [h]
    rcases hr with rfl | ⟨h5, h6⟩
    · simp [hk]
    · have hne : ¬ (s = 429) := by omega
      simp [hne, h5, h6, hk]

theorem retryGo_step_429_exhaust {α : Type} {f : ℕ → Outcome α} {m k : ℕ}
    (h : f k = .err (.http 429)) (hk : ¬ k < m) :
    retryGo f m k = .failure .rateLimitExceeded (k + 1) := by
  unfold retryGo
  rw [h]
  simp [hk]

theorem retryGo_success_after {α : Type} {f : ℕ → Outcome α} {m N : ℕ} {a : α}
    (hNm : N ≤ m)
    (hfail : ∀ i, i < N → ∃ e, f i = Outcome.err e ∧ isRetryable e = true)
    (hok : f N = Outcome.ok a) :
    ∀ d k, k + d = N → retryGo f m k = .success a (N + 1) := by
  intro d
  induction d with
  | zero =>
    intro k hk
    have hk0 : k = N := by omega
    subst hk0
    exact retryGo_step_ok hok
  | succ d ih =>
    intro k hk
    have hkN : k < N := by omega
    obtain ⟨e, hfe, hre⟩ := hfail k hkN
    rw [retryGo_step_retryable hfe hre (lt_of_lt_of_le hkN hNm)]
    exact ih (k + 1) (by omega)

theorem retryGo_429_forever {α : Type} {f : ℕ → Outcome α} {m : ℕ}
    (h : ∀ i, f i = Outcome.err (AzureError.http 429)) :
    ∀ d k, k + d = m → retryGo f m k = .failure .rateLimitExceeded (m + 1) := by
  intro d
  induction d with
  | zero =>
    intro k hk
    have hk0 : k = m := by omega
    rw [hk0]
    exact retryGo_step_429_exhaust (h m) (by omega)
  | succ d ih =>
    intro k hk
    rw [retryGo_step_retryable (h k) rfl (by omega)]
    exact ih (k + 1) (by omega)

/-- C2: an operation failing with retryable errors (rate limit, 5xx, or
network) on its first N attempts, N at most max_retries, and succeeding on
attempt N is invoked exactly N + 1 times and its success value is returned;
an operation that always fails with a rate-limit error is invoked exactly
max_retries + 1 times and the wrapper then raises RateLimitExceeded. -/
theorem retry_attempt_counts (α : Type) (f : ℕ → Outcome α) (m N : ℕ) (a : α) :
    (N ≤ m → (∀ i, i < N → ∃ e, f i = Outcome.err e ∧ isRetryable e = true) →
      f N = Outcome.ok a → retryRun m f = RetryResult.success a (N + 1)) ∧
    ((∀ i, f i = Outcome.err (AzureError.http 429)) →
      retryRun m f = RetryResult.failure FailureKind.rateLimitExceeded (m + 1)) := by
  constructor
  · intro hNm hfail hok
    exact retryGo_success_after hNm hfail hok N 0 (by omega)
  · intro h
    exact retryGo_429_forever h m 0 (by omega)

/-- Witness for retry_attempt_counts: two 429 failures then success at
max_retries 3 gives 3 invocations and the value 42; constant 429 failures
at max_retries 3 give exactly 4 invocations then RateLimitExceeded. -/
theorem retry_attempt_counts_witness :
    retryRun 3 exTraceTwo429 = RetryResult.success 42 3 ∧
    retryRun 3 exTrace429 = RetryResult.failure FailureKind.rateLimitExceeded 4 := by
  constructor
  · exact (retry_attempt_counts ℕ exTraceTwo429 3 2 42).1 (by omega)
      (fun i hi => ⟨AzureError.http 429, by simp [exTraceTwo429, hi], rfl⟩)
      (by simp [exTraceTwo429])
  · exact (retry_attempt_counts ℕ exTrace429 3 0 0).2 (fun i => rfl)

/-- C3 (amended): inside retry_with_backoff an authentication failure on
the first attempt raises AuthenticationExpired after exactly one
invocation of the operation and is never retried; however an
authentication failure raised while analyzing one subscription is caught
by the per-subscription handler of _detect_subscription_anomalies and
yields an empty result for that subscription instead of being surfaced. -/
theorem auth_failure_behavior (α : Type) :
    (∀ (f : ℕ → Outcome α) (m : ℕ), f 0 = Outcome.err AzureError.auth →
      retryRun m f = RetryResult.failure FailureKind.authExpired 1) ∧
    (∀ (sub : String) (hist : Except AzureError (List CostEntry)) (thr : ℚ),
      detectSubscriptionAnomalies ⟨sub, Except.error AzureError.auth, hist⟩ thr = []) ∧
    (∀ (sub : String) (act : Except AzureError (List CostEntry)) (thr : ℚ),
      detectSubscriptionAnomalies ⟨sub, act, Except.error AzureError.auth⟩ thr = []) := by
  refine ⟨fun f m h => retryGo_step_auth h, fun sub hist thr => ?_, fun sub act thr => ?_⟩
  · cases hist <;> rfl
  · cases act <;> rfl

/-- Witness for auth_failure_behavior at a concrete trace and fetch. -/
theorem auth_failure_behavior_witness :
    retryRun 3 exTraceAuth = RetryResult.failure FailureKind.authExpired 1 ∧
    detectSubscriptionAnomalies ⟨"s", Except.error AzureError.auth, Except.ok []⟩ (3/2) = [] :=
  ⟨(auth_failure_behavior ℕ).1 exTraceAuth 3 rfl,
   (auth_failure_behavior ℕ).2.1 "s" (Except.ok []) (3/2)⟩

/-- C3 counterexample to the claim as stated: at this concrete input the
authentication failure is NOT surfaced to the caller — the per-subscription
analysis swallows it, the subscription contributes an empty result, and the
enterprise run completes normally with zero anomalies. -/
theorem auth_failure_swallowed_counterexample :
    detectSubscriptionAnomalies exSubAuthFail (3/2) = [] ∧
    (enterpriseAnomalies [exSubAuthFail] (3/2)).total_anomalies = 0 ∧
    (enterpriseAnomalies [exSubAuthFail] (3/2)).anomalies = [] := by
  refine ⟨rfl, rfl, ?_⟩
  simp [enterpriseAnomalies, detectSubscriptionAnomalies, exSubAuthFail]

theorem categoryScore_nonneg (r : AdvisorRec) : 0 ≤ categoryScore r := by
  unfold categoryScore
  dsimp only
  split_ifs <;> norm_num

theorem prodBonus_nonneg (r : AdvisorRec) : 0 ≤ prodBonus r := by
  unfold prodBonus
  split_ifs <;> norm_num

/-- C4: for every recommendation the final risk score lies in [0, 10]; the
maximal Security accumulation (High impact +4, encryption +2, access +2,
production +2) reaches a raw sum of exactly 10 and a final score of exactly
10, so the clamp keeps the score at the cap. -/
theorem risk_score_clamped (r : AdvisorRec) :
    0 ≤ (calcRiskScore r).1 ∧ (calcRiskScore r).1 ≤ 10 ∧
    rawRiskScore exRecMax = 10 ∧ (calcRiskScore exRecMax).1 = 10 := by
  refine ⟨?_, ?_, ?_, ?_⟩
  · exact le_min (add_nonneg (categoryScore_nonneg r) (prodBonus_nonneg r)) (by norm_num)
  · exact min_le_right _ _
  · decide
  · decide

/-- C10: a recommendation whose impact is missing or empty is scored and
effort-estimated exactly as if its impact were "Medium"; for the Security
category this means the +3 Medium base (score 3 when no keyword bonus
applies) and the 2-hour Medium effort column. -/
theorem missing_impact_defaults_medium (r : AdvisorRec)
    (h : r.impact = none ∨ r.impact = some "") :
    calcRiskScore r = calcRiskScore { r with impact := some "Medium" } ∧
    estimateEffort r = estimateEffort { r with impact := some "Medium" } ∧
    (r.category = "Security" → estimateEffort r = 2) ∧
    (r.category = "Security" → r.short_description = none →
      (calcRiskScore r).1 = 3) := by
  have him : effImpact r.impact = "Medium" := by
    rcases h with h | h <;> simp [h, effImpact]
  have him2 : effImpact (some "Medium") = "Medium" := rfl
  refine ⟨?_, ?_, ?_, ?_⟩
  · simp only [calcRiskScore, rawRiskScore, categoryScore, prodBonus,
      riskFactorsOf, problemText, extractCostImpact, him, him2]
  · simp only [estimateEffort, him, him2]
  · intro hsec
    simp only [estimateEffort, him, hsec]
    decide
  · intro hsec hsd
    have hkw : ∀ k : String, containsKw (problemText r) k = containsKw [] k := by
      intro k
      simp [problemText, hsd]
    have hk1 : containsKw (problemText r) "encrypt" = false := by
      rw [hkw]; decide
    have hk2 : containsKw (problemText r) "access" = false := by
      rw [hkw]; decide
    have hk3 : containsKw (problemText r) "authentication" = false := by
      rw [hkw]; decide
    have hk4 : containsKw (problemText r) "prod" = false := by
      rw [hkw]; decide
    have hk5 : containsKw (problemText r) "production" = false := by
      rw [hkw]; decide
    simp only [calcRiskScore, rawRiskScore, categoryScore, prodBonus, him,
      hsec, hk1, hk2, hk3, hk4, hk5]
    norm_num [min_def]
    decide

/-- Witness for missing_impact_defaults_medium at a concrete Security
recommendation with a missing impact and no short description. -/
theorem missing_impact_defaults_medium_witness :
    calcRiskScore exRecNoImpact
      = calcRiskScore { exRecNoImpact with impact := some "Medium" } ∧
    estimateEffort exRecNoImpact
      = estimateEffort { exRecNoImpact with impact := some "Medium" } ∧
    (exRecNoImpact.category = "Security" → estimateEffort exRecNoImpact = 2) ∧
    (exRecNoImpact.category = "Security" → exRecNoImpact.short_description = none →
      (calcRiskScore exRecNoImpact).1 = 3) :=
  missing_impact_defaults_medium exRecNoImpact (Or.inl rfl)

/-- C5 (amended): a failure analyzing one subscription is caught and the
batch is never aborted — the remaining subscriptions are unaffected.  The
anomaly detector materialises both cost lists before its comparison loop,
so a failing subscription contributes exactly zero anomalies and can be
removed from a (still nonempty) batch without changing the result.  The
governance advisor appends inside its listing loop, so a subscription
whose listing fails contributes exactly the recommendations scored before
the failure: the run equals the run in which that listing had completed
normally with the same prefix, and only when the failure precedes the
first yielded recommendation is the contribution exactly zero. -/
theorem subscription_failure_isolation
    (pre post : List SubFetch) (b : SubFetch) (thr : ℚ)
    (gpre gpost : List (String × AdvisorListing)) (gid : String)
    (grecs : List AdvisorRec) (ge : AzureError) (minRisk : ℤ)
    (hb : (∃ e, b.fetchActual = Except.error e) ∨ (∃ e, b.fetchHist = Except.error e))
    (hne : pre ++ post ≠ [])
    (hgne : gpre ++ gpost ≠ []) :
    detectSubscriptionAnomalies b thr = [] ∧
    getEnterpriseAnomalies (pre ++ b :: post) thr
      = getEnterpriseAnomalies (pre ++ post) thr ∧
    getAdvisorRecommendations gid ⟨grecs, some ge⟩ = grecs.map (buildRecOut gid) ∧
    governanceRemediationAdvisor (gpre ++ (gid, ⟨grecs, some ge⟩) :: gpost) minRisk
      = governanceRemediationAdvisor (gpre ++ (gid, ⟨grecs, none⟩) :: gpost) minRisk ∧
    (grecs = [] →
      governanceRemediationAdvisor (gpre ++ (gid, ⟨grecs, some ge⟩) :: gpost) minRisk
        = governanceRemediationAdvisor (gpre ++ gpost) minRisk) := by
  obtain ⟨bid, fa, fh⟩ := b
  have hdb : detectSubscriptionAnomalies ⟨bid, fa, fh⟩ thr = [] := by
    rcases hb with ⟨e, he⟩ | ⟨e, he⟩
    · simp only at he
      subst he
      cases fh <;> rfl
    · simp only at he
      subst he
      cases fa <;> rfl
  have hne1 : ¬ ((pre ++ ⟨bid, fa, fh⟩ :: post).isEmpty = true) := by
    simp [List.isEmpty_iff]
  have hne2 : ¬ ((pre ++ post).isEmpty = true) := by
    simpa [List.isEmpty_iff] using hne
  have hgne1 : ∀ x : String × AdvisorListing,
      ¬ ((gpre ++ x :: gpost).isEmpty = true) := by
    intro x
    simp [List.isEmpty_iff]
  have hgne2 : ¬ ((gpre ++ gpost).isEmpty = true) := by
    simpa [List.isEmpty_iff] using hgne
  refine ⟨hdb, ?_, rfl, ?_, ?_⟩
  · unfold getEnterpriseAnomalies
    rw [if_neg hne1, if_neg hne2]
    have hflat : (pre ++ ⟨bid, fa, fh⟩ :: post).flatMap
        (fun s => detectSubscriptionAnomalies s thr)
        = (pre ++ post).flatMap (fun s => detectSubscriptionAnomalies s thr) := by
      simp [List.flatMap_append, hdb]
    simp only [enterpriseAnomalies, hflat]
  · unfold governanceRemediationAdvisor
    rw [if_neg (hgne1 _), if_neg (hgne1 _)]
    have hflat : (gpre ++ (gid, (⟨grecs, some ge⟩ : AdvisorListing)) :: gpost).flatMap
        (fun s => getAdvisorRecommendations s.1 s.2)
        = (gpre ++ (gid, (⟨grecs, none⟩ : AdvisorListing)) :: gpost).flatMap
          (fun s => getAdvisorRecommendations s.1 s.2) := by
      simp [List.flatMap_append, getAdvisorRecommendations]
    simp only [governanceAdvisor, hflat]
  · intro hg
    subst hg
    unfold governanceRemediationAdvisor
    rw [if_neg (hgne1 _), if_neg hgne2]
    have hflat : (gpre ++ (gid, (⟨[], some ge⟩ : AdvisorListing)) :: gpost).flatMap
        (fun s => getAdvisorRecommendations s.1 s.2)
        = (gpre ++ gpost).flatMap (fun s => getAdvisorRecommendations s.1 s.2) := by
      simp [List.flatMap_append, getAdvisorRecommendations]
    simp only [governanceAdvisor, hflat]

/-- Witness for subscription_failure_isolation: one healthy plus one
failing subscription on each side, the advisor listing failing before its
first yield. -/
theorem subscription_failure_isolation_witness :
    detectSubscriptionAnomalies exSubAuthFail (3/2) = [] ∧
    getEnterpriseAnomalies ([exSubOk] ++ exSubAuthFail :: []) (3/2)
      = getEnterpriseAnomalies ([exSubOk] ++ []) (3/2) ∧
    getAdvisorRecommendations "gov-bad" ⟨[], some (AzureError.http 500)⟩
      = List.map (buildRecOut "gov-bad") [] ∧
    governanceRemediationAdvisor
        ([exGovOk] ++ ("gov-bad", ⟨[], some (AzureError.http 500)⟩) :: []) 5
      = governanceRemediationAdvisor
          ([exGovOk] ++ ("gov-bad", ⟨[], none⟩) :: []) 5 ∧
    (([] : List AdvisorRec) = [] →
      governanceRemediationAdvisor
          ([exGovOk] ++ ("gov-bad", ⟨[], some (AzureError.http 500)⟩) :: []) 5
        = governanceRemediationAdvisor ([exGovOk] ++ []) 5) :=
  subscription_failure_isolation [exSubOk] [] exSubAuthFail (3/2) [exGovOk] []
    "gov-bad" [] (AzureError.http 500) 5 (Or.inl ⟨AzureError.auth, rfl⟩)
    (by simp) (by simp)

/-- C5 counterexample to the claim as stated: an advisor listing that
fails mid-iteration, after one recommendation has already been scored and
appended, contributes that partial result — one recommendation, not
exactly zero — and removing the failing subscription changes the combined
result. -/
theorem partial_advisor_listing_counterexample :
    getAdvisorRecommendations "gov-part" exGovPartial
      = [buildRecOut "gov-part" exRecMax] ∧
    getAdvisorRecommendations "gov-part" exGovPartial ≠ [] ∧
    (governanceAdvisor [("gov-part", exGovPartial)] 0).summary.total_recommendations
      = 1 ∧
    (governanceAdvisor [] 0).summary.total_recommendations = 0 := by
  have hall : ([("gov-part", exGovPartial)].flatMap
      (fun s => getAdvisorRecommendations s.1 s.2))
      = [buildRecOut "gov-part" exRecMax] := by
    simp [getAdvisorRecommendations, exGovPartial]
  have hdec : decide ((0 : ℤ) ≤ (buildRecOut "gov-part" exRecMax).risk_score)
      = true := by decide
  have hfil : ([buildRecOut "gov-part" exRecMax].filter
      (fun r => decide ((0 : ℤ) ≤ r.risk_score)))
      = [buildRecOut "gov-part" exRecMax] := by
    rw [List.filter_cons, hdec]
    rfl
  refine ⟨rfl, by simp [getAdvisorRecommendations, exGovPartial], ?_, ?_⟩
  · show ((([("gov-part", exGovPartial)].flatMap
      (fun s => getAdvisorRecommendations s.1 s.2)).filter
        (fun r => decide ((0 : ℤ) ≤ r.risk_score))).mergeSort
        (fun a b => decide (b.risk_score ≤ a.risk_score))).length = 1
    rw [hall, hfil, (List.mergeSort_perm _ _).length_eq]
    rfl
  · simp [governanceAdvisor, calcSummary]

theorem pyRound2_low (q : ℚ) (f : ℤ) (h1 : (f : ℚ) ≤ q * 100)
    (h2 : q * 100 - (f : ℚ) < 1 / 2) : pyRound2 q = (f : ℚ) / 100 := by
  have hf : ⌊q * 100⌋ = f := by
    rw [Int.floor_eq_iff]
    refine ⟨h1, ?_⟩
    linarith
  unfold pyRound2
  dsimp only
  rw [hf, if_pos h2]

theorem pyRound2_high (q : ℚ) (f : ℤ) (h1 : q * 100 < (f : ℚ) + 1)
    (h2 : 1 / 2 < q * 100 - (f : ℚ)) : pyRound2 q = ((f : ℚ) + 1) / 100 := by
  have hf : ⌊q * 100⌋ = f := by
    rw [Int.floor_eq_iff]
    constructor
    · linarith
    · linarith
  unfold pyRound2
  dsimp only
  rw [hf, if_neg (by linarith), if_pos h2]
  push_cast
  ring

theorem detectCore_go (sub : String) (hist : List CostEntry) (thr : ℚ) :
    ∀ (l : List CostEntry) (acc : List AnomalyRecord),
      l.foldl (fun anomalies e =>
        match flagEntry sub hist thr e with
        | some rec => anomalies ++ [rec]
        | none => anomalies) acc
      = acc ++ l.filterMap (flagEntry sub hist thr) := by
  intro l
  induction l with
  | nil => intro acc; simp
  | cons e t ih =>
    intro acc
    cases hfe : flagEntry sub hist thr e with
    | none => simp [List.foldl_cons, hfe, ih, List.filterMap_cons]
    | some rec => simp [List.foldl_cons, hfe, ih, List.filterMap_cons]

theorem detectCore_eq (sub : String) (actual hist : List CostEntry) (thr : ℚ) :
    detectCore sub actual hist thr = actual.filterMap (flagEntry sub hist thr) := by
  unfold detectCore
  rw [detectCore_go]
  simp

/-- C1 (amended): a compared cost record is emitted as an anomaly exactly
when the baseline average of its key is positive and its actual cost
exceeds average times threshold — a key with zero or missing baseline is
never flagged — and the emitted record carries variance_percent equal to
(actual - average) / average * 100 rounded to two decimal places. -/
theorem anomaly_flagging (sub : String) (actual hist : List CostEntry) (thr : ℚ) :
    (∀ rec, rec ∈ detectCore sub actual hist thr ↔
      ∃ e ∈ actual,
        (0 < averageFor hist (e.resource_group, e.service_name) ∧
          averageFor hist (e.resource_group, e.service_name) * thr < e.cost) ∧
        rec = mkAnomaly sub e (averageFor hist (e.resource_group, e.service_name))) ∧
    (∀ (e : CostEntry) (avg : ℚ),
      (mkAnomaly sub e avg).variance_percent = pyRound2 ((e.cost - avg) / avg * 100)) := by
  constructor
  · intro rec
    rw [detectCore_eq, List.mem_filterMap]
    constructor
    · rintro ⟨e, he, hfe⟩
      simp only [flagEntry] at hfe
      split at hfe
      · exact ⟨e, he, by assumption, (Option.some_inj.1 hfe).symm⟩
      · exact absurd hfe (by simp)
    · rintro ⟨e, he, hc, rfl⟩
      refine ⟨e, he, ?_⟩
      simp only [flagEntry]
      rw [if_pos hc]
  · intro e avg
    rfl

/-- Witness for anomaly_flagging: a record with cost 10 against baseline
average 3 at threshold 3/2 is emitted, with variance rounded. -/
theorem anomaly_flagging_witness :
    mkAnomaly "s" exTodayEntry 3 ∈ detectCore "s" [exTodayEntry] [exHistEntry] (3/2) ∧
    (mkAnomaly "s" exTodayEntry 3).variance_percent
      = pyRound2 ((exTodayEntry.cost - 3) / 3 * 100) := by
  have havg : averageFor [exHistEntry]
      (exTodayEntry.resource_group, exTodayEntry.service_name) = 3 := by
    norm_num [averageFor, exHistEntry, exTodayEntry]
  constructor
  · apply ((anomaly_flagging "s" [exTodayEntry] [exHistEntry] (3/2)).1
      (mkAnomaly "s" exTodayEntry 3)).2
    refine ⟨exTodayEntry, by simp, ⟨?_, ?_⟩, ?_⟩
    · rw [havg]; norm_num
    · rw [havg]; norm_num [exTodayEntry]
    · rw [havg]
  · exact (anomaly_flagging "s" [exTodayEntry] [exHistEntry] (3/2)).2 exTodayEntry 3

/-- C1 counterexample to the claim as stated: the emitted record for cost
10 against average 3 carries variance_percent 233.33, not the exact value
(10 - 3) / 3 * 100 = 700/3 = 233.333..., because the source rounds the
variance to two decimals before storing it. -/
theorem anomaly_variance_exact_counterexample :
    detectCore "s" [exTodayEntry] [exHistEntry] (3/2)
      = [mkAnomaly "s" exTodayEntry 3] ∧
    (mkAnomaly "s" exTodayEntry 3).variance_percent = 23333 / 100 ∧
    (exTodayEntry.cost - 3) / 3 * 100 = 700 / 3 ∧
    (23333 : ℚ) / 100 ≠ 700 / 3 := by
  have havg : averageFor [exHistEntry]
      (exTodayEntry.resource_group, exTodayEntry.service_name) = 3 := by
    norm_num [averageFor, exHistEntry, exTodayEntry]
  refine ⟨?_, ?_, by norm_num [exTodayEntry], by norm_num⟩
  · rw [detectCore_eq]
    have hfe : flagEntry "s" [exHistEntry] (3/2) exTodayEntry
        = some (mkAnomaly "s" exTodayEntry 3) := by
      simp only [flagEntry, havg]
      rw [if_pos (by constructor <;> norm_num [exTodayEntry])]
    simp [List.filterMap_cons, hfe]
  · show pyRound2 ((exTodayEntry.cost - 3) / 3 * 100) = 23333 / 100
    have hq : (exTodayEntry.cost - 3) / 3 * 100 = 700 / 3 := by
      norm_num [exTodayEntry]
    rw [hq, pyRound2_low (700/3) 23333 (by norm_num) (by norm_num)]
    norm_num

theorem detect_map_sum (s : SubFetch) (thr : ℚ) :
    ((detectSubscriptionAnomalies s thr).map
      (fun r => r.actual_cost - r.average_cost)).sum = subExcess s thr := by
  obtain ⟨id, fa, fh⟩ := s
  cases fa with
  | error e => cases fh <;> rfl
  | ok actual =>
    cases fh with
    | error e => rfl
    | ok hist =>
      show ((detectCore id actual hist thr).map
        (fun r => r.actual_cost - r.average_cost)).sum = _
      rw [detectCore_eq]
      induction actual with
      | nil => rfl
      | cons e t ih =>
        by_cases hc : 0 < averageFor hist (e.resource_group, e.service_name) ∧
            averageFor hist (e.resource_group, e.service_name) * thr < e.cost
        · simp only [subExcess] at ih ⊢
          simp [List.filterMap_cons, List.filter_cons, flagEntry, hc, mkAnomaly, ih]
        · simp only [subExcess] at ih ⊢
          simp [List.filterMap_cons, List.filter_cons, flagEntry, hc, ih]

/-- C6 (amended): total_excess_spend is the sum over flagged records of
the stored two-decimal-rounded actual cost minus the stored two-decimal
rounded baseline average, with one further rounding applied to the total
at the result boundary; the per-record values entering the sum are the
rounded stored fields, not the full-precision inputs. -/
theorem excess_spend_rounding (subs : List SubFetch) (thr : ℚ) :
    (enterpriseAnomalies subs thr).total_excess_spend
      = pyRound2 ((subs.map (fun s => subExcess s thr)).sum) := by
  unfold enterpriseAnomalies
  dsimp only
  congr 1
  induction subs with
  | nil => simp
  | cons s t ih => simp [List.flatMap_cons, List.sum_append, ih, detect_map_sum]

/-- C6 counterexample to the claim as stated: with two flagged records of
actual cost 10.004 against baseline average 1 the code reports a total
excess of 18.00 (the rounded stored values 10.00 - 1.00 enter the sum),
while the full-precision sum 9.004 + 9.004 = 18.008 rounded once at the
boundary would be 18.01. -/
theorem excess_spend_full_precision_counterexample :
    (enterpriseAnomalies [exSubRounding] (3/2)).total_excess_spend = 18 ∧
    averageFor [exHistA, exHistB] ("rg", "a") = 1 ∧
    averageFor [exHistA, exHistB] ("rg", "b") = 1 ∧
    (enterpriseAnomalies [exSubRounding] (3/2)).total_anomalies = 2 ∧
    pyRound2 ((exCostA.cost - 1) + (exCostB.cost - 1)) = 1801 / 100 ∧
    (18 : ℚ) ≠ 1801 / 100 := by
  have hba : (decide (("b" : String) = "a")) = false := by decide
  have hab : (decide (("a" : String) = "b")) = false := by decide
  have havgA : averageFor [exHistA, exHistB] ("rg", "a") = 1 := by
    norm_num [averageFor, exHistA, exHistB, hba]
  have havgB : averageFor [exHistA, exHistB] ("rg", "b") = 1 := by
    norm_num [averageFor, exHistA, exHistB, hab]
  have hfA : flagEntry "sub-1" [exHistA, exHistB] (3/2) exCostA
      = some (mkAnomaly "sub-1" exCostA 1) := by
    simp only [flagEntry, exCostA, havgA]
    rw [if_pos (by constructor <;> norm_num)]
  have hfB : flagEntry "sub-1" [exHistA, exHistB] (3/2) exCostB
      = some (mkAnomaly "sub-1" exCostB 1) := by
    simp only [flagEntry, exCostB, havgB]
    rw [if_pos (by constructor <;> norm_num)]
  have hall : [exSubRounding].flatMap
      (fun s => detectSubscriptionAnomalies s (3/2))
      = [mkAnomaly "sub-1" exCostA 1, mkAnomaly "sub-1" exCostB 1] := by
    show detectSubscriptionAnomalies exSubRounding (3/2) ++ [] = _
    rw [List.append_nil]
    show detectCore "sub-1" [exCostA, exCostB] [exHistA, exHistB] (3/2) = _
    rw [detectCore_eq]
    simp [List.filterMap_cons, hfA, hfB]
  have hr1 : pyRound2 (10.004 : ℚ) = 10 := by
    rw [pyRound2_low (10.004 : ℚ) 1000 (by norm_num) (by norm_num)]
    norm_num
  have hr2 : pyRound2 (1 : ℚ) = 1 := by
    rw [pyRound2_low (1 : ℚ) 100 (by norm_num) (by norm_num)]
    norm_num
  have hr3 : pyRound2 (18 : ℚ) = 18 := by
    rw [pyRound2_low (18 : ℚ) 1800 (by norm_num) (by norm_num)]
    norm_num
  refine ⟨?_, havgA, havgB, ?_, ?_, by norm_num⟩
  · show pyRound2 (([exSubRounding].flatMap
      (fun s => detectSubscriptionAnomalies s (3/2))).map
        (fun r => r.actual_cost - r.average_cost)).sum = 18
    rw [hall]
    simp only [List.map_cons, List.map_nil, List.sum_cons, List.sum_nil, mkAnomaly]
    show pyRound2 ((pyRound2 exCostA.cost - pyRound2 1)
      + (pyRound2 exCostB.cost - pyRound2 1 + 0)) = 18
    simp only [exCostA, exCostB]
    rw [hr1, hr2]
    norm_num [hr3]
  · show ([exSubRounding].flatMap
      (fun s => detectSubscriptionAnomalies s (3/2))).length = 2
    rw [hall]
    rfl
  · have hq : (exCostA.cost - 1) + (exCostB.cost - 1) = 18.008 := by
      norm_num [exCostA, exCostB]
    rw [hq, pyRound2_high (18.008 : ℚ) 1800 (by norm_num) (by norm_num)]
    norm_num

theorem mem_of_ite_nil {α : Type} {c : Prop} [Decidable c] {l : List α} {x : α}
    (h : x ∈ (if c then l else [])) : x ∈ l := by
  split at h
  · exact h
  · simp at h

theorem eq_of_mem_ite_singleton {α : Type} {c : Prop} [Decidable c] {fl x : α}
    (h : x ∈ (if c then [fl] else [])) : x = fl := by
  have := mem_of_ite_nil h
  simpa using this

theorem check_severity_known (r : CostRecInput) (iso nia : Bool) :
    ∀ f ∈ checkComplianceImpact r iso nia,
      f.severity = "critical" ∨ f.severity = "high" ∨ f.severity = "medium" := by
  intro f hf
  unfold checkComplianceImpact at hf
  rcases List.mem_append.1 hf with h | h
  · have h1 := mem_of_ite_nil h
    rcases List.mem_append.1 h1 with h2 | hD
    · rcases List.mem_append.1 h2 with h3 | hC
      · rcases List.mem_append.1 h3 with hA | hB
        · rw [eq_of_mem_ite_singleton hA]
          right; left; rfl
        · rw [eq_of_mem_ite_singleton hB]
          right; left; rfl
      · rw [eq_of_mem_ite_singleton hC]
        right; right; rfl
    · rw [eq_of_mem_ite_singleton hD]
      right; left; rfl
  · have h1 := mem_of_ite_nil h
    rcases List.mem_append.1 h1 with h2 | hD
    · rcases List.mem_append.1 h2 with h3 | hC
      · rcases List.mem_append.1 h3 with hA | hB
        · rw [eq_of_mem_ite_singleton hA]
          left; rfl
        · rw [eq_of_mem_ite_singleton hB]
          left; rfl
      · rw [eq_of_mem_ite_singleton hC]
        right; left; rfl
    · rw [eq_of_mem_ite_singleton hD]
      right; right; rfl

theorem sevRank_le_four (s : String) : sevRank s ≤ 4 := by
  unfold sevRank
  split_ifs <;> norm_num

theorem maxSevRank_nil : maxSevRank [] = 1 := rfl

theorem maxSevRank_cons (f : ComplianceFlag) (t : List ComplianceFlag) :
    maxSevRank (f :: t) = max (sevRank f.severity) (maxSevRank t) := rfl

theorem maxSevRank_le (t : List ComplianceFlag) (k : ℕ) (hk : 1 ≤ k)
    (h : ∀ f ∈ t, sevRank f.severity ≤ k) : maxSevRank t ≤ k := by
  induction t with
  | nil => exact hk
  | cons f t ih =>
    rw [maxSevRank_cons]
    exact max_le (h f (List.mem_cons_self f t))
      (ih (fun g hg => h g (List.mem_cons_of_mem f hg)))

theorem le_maxSevRank_of_mem {f : ComplianceFlag} {t : List ComplianceFlag}
    (h : f ∈ t) : sevRank f.severity ≤ maxSevRank t := by
  induction t with
  | nil => simp at h
  | cons g t ih =>
    rw [maxSevRank_cons]
    rcases List.mem_cons.1 h with rfl | h
    · exact le_max_left _ _
    · exact le_trans (ih h) (le_max_right _ _)

theorem sevName_maxSevRank (flags : List ComplianceFlag)
    (hknown : ∀ f ∈ flags,
      f.severity = "critical" ∨ f.severity = "high" ∨ f.severity = "medium") :
    sevName (maxSevRank flags) = specMaxSeverity flags := by
  induction flags with
  | nil => rfl
  | cons f t ih =>
    have hf := hknown f (List.mem_cons_self f t)
    have ht : ∀ g ∈ t,
        g.severity = "critical" ∨ g.severity = "high" ∨ g.severity = "medium" :=
      fun g hg => hknown g (List.mem_cons_of_mem f hg)
    have hle4 : maxSevRank t ≤ 4 :=
      maxSevRank_le t 4 (by norm_num) (fun g _ => sevRank_le_four _)
    rw [maxSevRank_cons]
    rcases hf with hf | hf | hf
    · rw [hf]
      have hm : max (sevRank "critical") (maxSevRank t) = 4 :=
        Nat.max_eq_left hle4
      rw [hm]
      simp [specMaxSeverity, List.any_cons, hf, sevName]
    · by_cases hc : ∃ g ∈ t, g.severity = "critical"
      · obtain ⟨g, hg, hgc⟩ := hc
        have hge : 4 ≤ maxSevRank t := by
          have h4 : sevRank g.severity = 4 := by rw [hgc]; rfl
          exact h4 ▸ le_maxSevRank_of_mem hg
        have hmt : maxSevRank t = 4 := le_antisymm hle4 hge
        rw [hf, hmt]
        have hcany : (t.any (fun g => g.severity == "critical")) = true := by
          simp only [List.any_eq_true, beq_iff_eq]
          exact ⟨g, hg, hgc⟩
        simp [specMaxSeverity, List.any_cons, hf, hcany, sevName,
          Nat.max_eq_right, sevRank]
      · have hle3 : maxSevRank t ≤ 3 := by
          refine maxSevRank_le t 3 (by norm_num) (fun g hg => ?_)
          rcases ht g hg with h | h | h
          · exact absurd ⟨g, hg, h⟩ hc
          · rw [h]; decide
          · rw [h]; decide
        have hm : max (sevRank "high") (maxSevRank t) = 3 :=
          Nat.max_eq_left hle3
        rw [hf, hm]
        have hcany : (t.any (fun g => g.severity == "critical")) = false := by
          simp only [List.any_eq_false, beq_iff_eq]
          intro g hg
          exact fun hgc => hc ⟨g, hg, hgc⟩
        simp [specMaxSeverity, List.any_cons, hf, hcany, sevName]
    · by_cases hc : ∃ g ∈ t, g.severity = "critical"
      · obtain ⟨g, hg, hgc⟩ := hc
        have hge : 4 ≤ maxSevRank t := by
          have h4 : sevRank g.severity = 4 := by rw [hgc]; rfl
          exact h4 ▸ le_maxSevRank_of_mem hg
        have hmt : maxSevRank t = 4 := le_antisymm hle4 hge
        rw [hf, hmt]
        have hcany : (t.any (fun g => g.severity == "critical")) = true := by
          simp only [List.any_eq_true, beq_iff_eq]
          exact ⟨g, hg, hgc⟩
        simp [specMaxSeverity, List.any_cons, hf, hcany, sevName,
          Nat.max_eq_right, sevRank]
      · by_cases hh : ∃ g ∈ t, g.severity = "high"
        · obtain ⟨g, hg, hgh⟩ := hh
          have hge : 3 ≤ maxSevRank t := by
            have h3 : sevRank g.severity = 3 := by rw [hgh]; rfl
            exact h3 ▸ le_maxSevRank_of_mem hg
          have hle3 : maxSevRank t ≤ 3 := by
            refine maxSevRank_le t 3 (by norm_num) (fun x hx => ?_)
            rcases ht x hx with h | h | h
            · exact absurd ⟨x, hx, h⟩ hc
            · rw [h]; decide
            · rw [h]; decide
          have hmt : maxSevRank t = 3 := le_antisymm hle3 hge
          rw [hf, hmt]
          have hcany : (t.any (fun g => g.severity == "critical")) = false := by
            simp only [List.any_eq_false, beq_iff_eq]
            intro x hx
            exact fun hxc => hc ⟨x, hx, hxc⟩
          have hhany : (t.any (fun g => g.severity == "high")) = true := by
            simp only [List.any_eq_true, beq_iff_eq]
            exact ⟨g, hg, hgh⟩
          simp [specMaxSeverity, List.any_cons, hf, hcany, hhany, sevName,
            Nat.max_eq_right, sevRank]
        · have hle2 : maxSevRank t ≤ 2 := by
            refine maxSevRank_le t 2 (by norm_num) (fun x hx => ?_)
            rcases ht x hx with h | h | h
            · exact absurd ⟨x, hx, h⟩ hc
            · exact absurd ⟨x, hx, h⟩ hh
            · rw [h]; decide
          have hm : max (sevRank "medium") (maxSevRank t) = 2 :=
            Nat.max_eq_left hle2
          rw [hf, hm]
          have hcany : (t.any (fun g => g.severity == "critical")) = false := by
            simp only [List.any_eq_false, beq_iff_eq]
            intro x hx
            exact fun hxc => hc ⟨x, hx, hxc⟩
          have hhany : (t.any (fun g => g.severity == "high")) = false := by
            simp only [List.any_eq_false, beq_iff_eq]
            intro x hx
            exact fun hxh => hh ⟨x, hx, hxh⟩
          simp [specMaxSeverity, List.any_cons, hf, hcany, hhany, sevName]

theorem overlay_go (iso nia : Bool) :
    ∀ (l : List CostRecInput)
      (acc : List (CostRecInput × List ComplianceFlag) × List CostRecInput × List ComplianceWarning),
      l.foldl (overlayStep iso nia) acc
        = (acc.1 ++ (l.filter
              (fun r => !(checkComplianceImpact r iso nia).isEmpty)).map
              (fun r => (r, checkComplianceImpact r iso nia)),
           acc.2.1 ++ l.filter (fun r => (checkComplianceImpact r iso nia).isEmpty),
           acc.2.2 ++ (l.filter
              (fun r => !(checkComplianceImpact r iso nia).isEmpty)).map
              (fun r => generateComplianceWarning r (checkComplianceImpact r iso nia))) := by
  intro l
  induction l with
  | nil => intro acc; simp
  | cons r t ih =>
    intro acc
    by_cases hc : (checkComplianceImpact r iso nia).isEmpty = true
    · rw [List.foldl_cons, ih]
      simp [overlayStep, hc, List.filter_cons]
    · simp only [Bool.not_eq_true] at hc
      rw [List.foldl_cons, ih]
      simp [overlayStep, hc, List.filter_cons]

/-- C7: every flagged recommendation yields exactly one synthesized
warning, and the severity of that warning is the maximum severity among
the recommendation flags under the order critical > high > medium >
low. -/
theorem compliance_warning_severity (recs : List CostRecInput) (iso nia : Bool) :
    (applyComplianceOverlay recs iso nia).compliance_warnings
      = (recs.filter (fun r => !(checkComplianceImpact r iso nia).isEmpty)).map
          (fun r => generateComplianceWarning r (checkComplianceImpact r iso nia)) ∧
    ∀ r : CostRecInput, checkComplianceImpact r iso nia ≠ [] →
      (generateComplianceWarning r (checkComplianceImpact r iso nia)).severity
        = specMaxSeverity (checkComplianceImpact r iso nia) := by
  constructor
  · unfold applyComplianceOverlay
    dsimp only
    rw [overlay_go]
    simp
  · intro r _hr
    show sevName (maxSevRank (checkComplianceImpact r iso nia)) = _
    exact sevName_maxSevRank _ (check_severity_known r iso nia)

/-- Witness for compliance_warning_severity: a recommendation matching the
medium monitoring and audit buckets and the critical sovereignty bucket
gets one warning with severity critical. -/
theorem compliance_warning_severity_witness :
    checkComplianceImpact exComplianceRec true true
      = [isoMonitoringFlag, niaSovereigntyFlag, niaAuditFlag] ∧
    (applyComplianceOverlay [exComplianceRec] true true).compliance_warnings
      = [generateComplianceWarning exComplianceRec
          (checkComplianceImpact exComplianceRec true true)] ∧
    (generateComplianceWarning exComplianceRec
      (checkComplianceImpact exComplianceRec true true)).severity = "critical" := by
  have hch : checkComplianceImpact exComplianceRec true true
      = [isoMonitoringFlag, niaSovereigntyFlag, niaAuditFlag] := by decide
  refine ⟨hch, ?_, ?_⟩
  · rw [(compliance_warning_severity [exComplianceRec] true true).1]
    rw [List.filter_cons]
    simp [hch]
  · rw [(compliance_warning_severity [exComplianceRec] true true).2 exComplianceRec
      (by rw [hch]; simp), hch]
    decide

theorem find?_ge_some {l : List ℚ} (hs : l.Sorted (· ≤ ·)) {size t : ℚ}
    (h : l.find? (fun s => decide (size ≤ s)) = some t) :
    size ≤ t ∧ ∀ u ∈ l, size ≤ u → t ≤ u := by
  induction l with
  | nil => simp at h
  | cons a l ih =>
    rw [List.find?_cons] at h
    by_cases ha : size ≤ a
    · rw [decide_eq_true ha] at h
      simp only [Option.some_inj] at h
      subst h
      refine ⟨ha, fun u hu _ => ?_⟩
      rcases List.mem_cons.1 hu with rfl | hu
      · exact le_refl u
      · exact (List.sorted_cons.1 hs).1 u hu
    · rw [decide_eq_false ha] at h
      obtain ⟨h1, h2⟩ := ih (List.sorted_cons.1 hs).2 h
      refine ⟨h1, fun u hu hsu => ?_⟩
      rcases List.mem_cons.1 hu with rfl | hu
      · exact absurd hsu ha
      · exact h2 u hu hsu

theorem find?_ge_none {l : List ℚ} {size : ℚ}
    (h : l.find? (fun s => decide (size ≤ s)) = none) : ∀ u ∈ l, u < size := by
  intro u hu
  have := List.find?_eq_none.1 h u hu
  simp only [decide_eq_true_eq] at this
  exact lt_of_not_le this

theorem sorted_getLast?_max {l : List ℚ} (hs : l.Sorted (· ≤ ·)) (hne : l ≠ []) :
    ∃ t, l.getLast? = some t ∧ t ∈ l ∧ ∀ u ∈ l, u ≤ t := by
  induction l with
  | nil => exact absurd rfl hne
  | cons a l ih =>
    cases l with
    | nil => exact ⟨a, rfl, List.mem_singleton.2 rfl, by simp⟩
    | cons b m =>
      obtain ⟨t, ht1, htm, ht2⟩ := ih (List.sorted_cons.1 hs).2 (by simp)
      refine ⟨t, by rw [List.getLast?_cons_cons]; exact ht1,
        List.mem_cons_of_mem a htm, fun u hu => ?_⟩
      rcases List.mem_cons.1 hu with rfl | hu
      · exact le_trans ((List.sorted_cons.1 hs).1 b (List.mem_cons_self b m))
          (ht2 b (List.mem_cons_self b m))
      · exact ht2 u hu

theorem find?_price {pricing : List (ℚ × ℚ)} {t : ℚ}
    (ht : t ∈ pricing.map Prod.fst) :
    ∃ price, (pricing.find? (fun p => decide (p.1 = t))).map Prod.snd = some price ∧
      (t, price) ∈ pricing := by
  induction pricing with
  | nil => simp at ht
  | cons p l ih =>
    by_cases hp : p.1 = t
    · refine ⟨p.2, ?_, ?_⟩
      · rw [List.find?_cons, decide_eq_true hp]
        rfl
      · have hpt : (t, p.2) = p := by rw [← hp]
        exact hpt ▸ List.mem_cons_self p l
    · rw [List.map_cons, List.mem_cons] at ht
      rcases ht with rfl | ht
      · exact absurd rfl hp
      · obtain ⟨price, h1, h2⟩ := ih ht
        refine ⟨price, ?_, List.mem_cons_of_mem p h2⟩
        rw [List.find?_cons, decide_eq_false hp]
        exact h1

theorem mergeSort_sizes_sorted (l : List ℚ) :
    (l.mergeSort (fun a b => decide (a ≤ b))).Sorted (· ≤ ·) := by
  have htrans : ∀ a b c : ℚ, decide (a ≤ b) = true → decide (b ≤ c) = true →
      decide (a ≤ c) = true := by
    intro a b c hab hbc
    simp only [decide_eq_true_eq] at hab hbc ⊢
    exact le_trans hab hbc
  have htotal : ∀ a b : ℚ, (decide (a ≤ b) || decide (b ≤ a)) = true := by
    intro a b
    by_cases hab : a ≤ b
    · simp [hab]
    · simp [le_of_not_le hab]
  have hp := @List.sorted_mergeSort ℚ (fun a b => decide (a ≤ b)) htrans htotal l
  exact hp.imp (fun hab => of_decide_eq_true hab)

/-- C8: for a known disk SKU the estimated cost is always defined: it is
the price of the smallest tier at least as large as the requested size
when one exists, and the price of the largest tier when the request
exceeds every tier. -/
theorem disk_tier_selection (sku : String) (size : ℚ) (h : diskPricing sku ≠ []) :
    ∃ t price, (t, price) ∈ diskPricing sku ∧
      getDiskMonthlyCost sku size = some price ∧
      ((size ≤ t ∧ ∀ u ∈ (diskPricing sku).map Prod.fst, size ≤ u → t ≤ u) ∨
       ((∀ u ∈ (diskPricing sku).map Prod.fst, u < size) ∧
        ∀ u ∈ (diskPricing sku).map Prod.fst, u ≤ t)) := by
  have hne : ¬ ((diskPricing sku).isEmpty = true) := by
    simpa [List.isEmpty_iff] using h
  have hperm : (((diskPricing sku).map Prod.fst).mergeSort
      (fun a b => decide (a ≤ b))).Perm ((diskPricing sku).map Prod.fst) :=
    List.mergeSort_perm _ _
  have hsort := mergeSort_sizes_sorted ((diskPricing sku).map Prod.fst)
  cases hfind : (((diskPricing sku).map Prod.fst).mergeSort
      (fun a b => decide (a ≤ b))).find? (fun s => decide (size ≤ s)) with
  | some t =>
    obtain ⟨hst, hmin⟩ := find?_ge_some hsort hfind
    have htmem : t ∈ (diskPricing sku).map Prod.fst :=
      hperm.subset (List.mem_of_find?_eq_some hfind)
    obtain ⟨price, hfp, hmem⟩ := find?_price htmem
    refine ⟨t, price, hmem, ?_,
      Or.inl ⟨hst, fun u hu hsu => hmin u (hperm.mem_iff.2 hu) hsu⟩⟩
    unfold getDiskMonthlyCost
    dsimp only
    rw [if_neg hne, hfind]
    exact hfp
  | none =>
    have hall := find?_ge_none hfind
    have hszne : (((diskPricing sku).map Prod.fst).mergeSort
        (fun a b => decide (a ≤ b))) ≠ [] := by
      intro h0
      rw [h0] at hperm
      have hmap := hperm.symm.eq_nil
      rw [List.map_eq_nil_iff] at hmap
      exact h hmap
    obtain ⟨t, hlast, htm, hmax⟩ := sorted_getLast?_max hsort hszne
    have htmem : t ∈ (diskPricing sku).map Prod.fst := hperm.subset htm
    obtain ⟨price, hfp, hmem⟩ := find?_price htmem
    refine ⟨t, price, hmem, ?_,
      Or.inr ⟨fun u hu => hall u (hperm.mem_iff.2 hu),
        fun u hu => hmax u (hperm.mem_iff.2 hu)⟩⟩
    unfold getDiskMonthlyCost
    dsimp only
    rw [if_neg hne, hfind, hlast]
    exact hfp

/-- Witness for disk_tier_selection: an oversized 2000 GB Premium_LRS
request still yields a price (that of a tier of the table). -/
theorem disk_tier_selection_witness :
    diskPricing "Premium_LRS" ≠ [] ∧
    ∃ t price, (t, price) ∈ diskPricing "Premium_LRS" ∧
      getDiskMonthlyCost "Premium_LRS" 2000 = some price ∧
      ((2000 ≤ t ∧ ∀ u ∈ (diskPricing "Premium_LRS").map Prod.fst, 2000 ≤ u → t ≤ u) ∨
       ((∀ u ∈ (diskPricing "Premium_LRS").map Prod.fst, u < 2000) ∧
        ∀ u ∈ (diskPricing "Premium_LRS").map Prod.fst, u ≤ t)) := by
  have hne : diskPricing "Premium_LRS" ≠ [] := by
    intro h0
    have : PREMIUM_LRS_TIERS = [] := by
      rw [← h0]
      rfl
    simp [PREMIUM_LRS_TIERS] at this
  exact ⟨hne, disk_tier_selection "Premium_LRS" 2000 hne⟩

/-- C9 (amended): an unknown SKU yields a not-found result for virtual
machines, disks and storage accounts, and an unknown resource type yields
not-found; the public IP estimator however falls back to the default
price 3.65 for a SKU missing from its table instead of returning
not-found. -/
theorem unknown_pricing_not_found :
    (∀ sku : String, VM_PRICES.find? (fun p => p.1 == sku) = none →
      estimateResourceCost "Microsoft.Compute/virtualMachines" sku none = none) ∧
    (∀ (sku : String) (size : Option ℚ), diskPricing sku = [] →
      estimateResourceCost "Microsoft.Compute/disks" sku size = none) ∧
    (∀ (sku : String) (size : Option ℚ),
      STORAGE_PRICES.find? (fun p => p.1 == sku) = none →
      estimateResourceCost "Microsoft.Storage/storageAccounts" sku size = none) ∧
    (∀ (rt sku : String) (size : Option ℚ),
      rt ≠ "Microsoft.Compute/virtualMachines" →
      rt ≠ "Microsoft.Compute/disks" →
      rt ≠ "Microsoft.Network/publicIPAddresses" →
      rt ≠ "Microsoft.Storage/storageAccounts" →
      estimateResourceCost rt sku size = none) ∧
    (∀ sku : String, PUBLIC_IP_PRICES.find? (fun p => p.1 == sku) = none →
      estimateResourceCost "Microsoft.Network/publicIPAddresses" sku none
        = some (3.65 : ℚ)) := by
  have hdv : ("Microsoft.Compute/disks" : String)
      ≠ "Microsoft.Compute/virtualMachines" := by decide
  have hsv : ("Microsoft.Storage/storageAccounts" : String)
      ≠ "Microsoft.Compute/virtualMachines" := by decide
  have hsd : ("Microsoft.Storage/storageAccounts" : String)
      ≠ "Microsoft.Compute/disks" := by decide
  have hsp : ("Microsoft.Storage/storageAccounts" : String)
      ≠ "Microsoft.Network/publicIPAddresses" := by decide
  have hpv : ("Microsoft.Network/publicIPAddresses" : String)
      ≠ "Microsoft.Compute/virtualMachines" := by decide
  have hpd : ("Microsoft.Network/publicIPAddresses" : String)
      ≠ "Microsoft.Compute/disks" := by decide
  refine ⟨?_, ?_, ?_, ?_, ?_⟩
  · intro sku h
    simp [estimateResourceCost, getVmMonthlyCost, h]
  · intro sku size h
    simp [estimateResourceCost, getDiskMonthlyCost, h, hdv]
  · intro sku size h
    simp [estimateResourceCost, getStorageAccountMonthlyCost, h, hsv, hsd, hsp]
  · intro rt sku size h1 h2 h3 h4
    simp [estimateResourceCost, h1, h2, h3, h4]
  · intro sku h
    simp [estimateResourceCost, getPublicIpMonthlyCost, h, hpv, hpd]

/-- Witness for unknown_pricing_not_found at unknown SKUs and an unknown
resource type. -/
theorem unknown_pricing_not_found_witness :
    estimateResourceCost "Microsoft.Compute/virtualMachines" "NoSuchSku" none = none ∧
    estimateResourceCost "Microsoft.Compute/disks" "NoSuchSku" none = none ∧
    estimateResourceCost "Microsoft.Storage/storageAccounts" "NoSuchSku" none = none ∧
    estimateResourceCost "Mystery/type" "Basic" none = none ∧
    estimateResourceCost "Microsoft.Network/publicIPAddresses" "NoSuchSku" none
      = some (3.65 : ℚ) :=
  ⟨unknown_pricing_not_found.1 "NoSuchSku" rfl,
   unknown_pricing_not_found.2.1 "NoSuchSku" none rfl,
   unknown_pricing_not_found.2.2.1 "NoSuchSku" none rfl,
   unknown_pricing_not_found.2.2.2.1 "Mystery/type" "Basic" none
     (by decide) (by decide) (by decide) (by decide),
   unknown_pricing_not_found.2.2.2.2 "NoSuchSku" rfl⟩

/-- C9 counterexample to the claim as stated: for public IP addresses an
unknown SKU does not produce a not-found result — the estimator returns
the invented default price 3.65. -/
theorem public_ip_unknown_sku_counterexample :
    PUBLIC_IP_PRICES.find? (fun p => p.1 == "Bogus") = none ∧
    estimateResourceCost "Microsoft.Network/publicIPAddresses" "Bogus" none
      = some (3.65 : ℚ) ∧
    some (3.65 : ℚ) ≠ (none : Option ℚ) := by
  refine ⟨rfl, rfl, by simp⟩
